import Mathlib

/-!
Shallow embedding of the google_photos_exif_processor repository.

The repository has three source files:
  * `src/json_matcher.py`        — standalone resolver `match_json` (rules 1-8,
    rule 7 = title fallback, rule 8 = stem-pattern fallback);
  * `src/google_photos_processor.py` — `GooglePhotosProcessor._match_json`
    (rules 1-8, rule 8 = title fallback) and the per-file pipeline
    `_process_file` / `_process_folder`;
  * `src/validate.py`            — `GooglePhotosValidator._find_json_for_media`
    and `_compare_file_sizes`.

File names are embedded as lists of characters (`FName`).  Python's
case-insensitive comparisons (`str.lower`) become `lowerName`; the regular
expressions used by the sources are translated pointwise into executable
predicates (a `.` in a pattern is modelled as matching any character).
JSON sidecar content is embedded as an already-parsed optional record
(`Option Meta`); `none` models a sidecar whose body fails to parse.
-/

abbrev FName := List Char

/-- Translate a Lean string literal into an embedded file name. -/
def nm (s : String) : FName := s.data

/-- Python `str.lower()` on a file name (ASCII, as used by the sources). -/
def lowerName (s : FName) : FName := s.map Char.toLower

/-- Python `str.startswith`: `s` starts with `t`. -/
def strStartsWith (s t : FName) : Bool := t.isPrefixOf s

/-- Python `str.endswith`: `s` ends with `t`. -/
def strEndsWith (s t : FName) : Bool := t.reverse.isPrefixOf s.reverse

/-- Python slicing `s[:-n]` for `n ≤ len s` (drop the last `n` characters). -/
def dropEnd (l : FName) (n : Nat) : FName := l.take (l.length - n)

/-- A JSON scalar as found in a sidecar timestamp field: a number or a string. -/
inductive JVal where
  | num (n : Int)
  | str (s : FName)
deriving DecidableEq

/-- Python truthiness of a timestamp value (`0` and `""` are falsy). -/
def JVal.truthy : JVal → Bool
  | .num n => n != 0
  | .str s => !s.isEmpty

/-- Digits-to-number helper for `pyInt`. -/
def natFromDigits (s : FName) : Nat :=
  s.foldl (fun a c => 10 * a + (c.toNat - 48)) 0

/-- Python `int(...)` applied to a timestamp value: identity on numbers,
integer parsing (optional sign, then decimal digits) on strings; `none`
models the `ValueError` raised on a non-numeric string. -/
def pyInt : JVal → Option Int
  | .num n => some n
  | .str s =>
    match s with
    | [] => none
    | '-' :: rest =>
        if rest.length ≠ 0 ∧ rest.all Char.isDigit then some (-(natFromDigits rest : Int)) else none
    | '+' :: rest =>
        if rest.length ≠ 0 ∧ rest.all Char.isDigit then some (natFromDigits rest : Int) else none
    | _ =>
        if s.all Char.isDigit then some (natFromDigits s : Int) else none

/-- Parsed sidecar body: the fields the embedded code reads.  The two
timestamp fields hold the value of `<field>.timestamp` when present. -/
structure Meta where
  title : Option FName
  photoTakenTime : Option JVal
  creationTime : Option JVal
deriving DecidableEq

/-- A sidecar candidate: its file name and its parsed content
(`none` = the JSON body does not parse). -/
structure Sidecar where
  name : FName
  content : Option Meta
deriving DecidableEq

/-- The `.json` suffix. -/
def jsonSuffix : FName := nm ".json"

/-- `JSON_LENGTH_LIMIT = 50` from both the processor and the validator. -/
def JSON_LENGTH_LIMIT : Nat := 50

/-- Regex helper for `^(.*)(\.[^.]+)$`-style extension splitting: returns
`(stem, ext)` where `ext` is the final `.`-suffix (nonempty, dot-free tail);
`none` when the name has no dot or ends with a dot. -/
def extSplit (name : FName) : Option (FName × FName) :=
  let tail := (name.reverse.takeWhile (fun c => c != '.')).reverse
  if tail.length = 0 ∨ tail.length = name.length then none
  else some (name.take (name.length - tail.length - 1), '.' :: tail)

/-- Regex `^(.+)\((\d+)\)(\.[^.]+)$` (rule 3 of all three resolvers):
decompose `base(N).ext` into `(base, N, ext)`. -/
def parenSplit (name : FName) : Option (FName × FName × FName) :=
  match extSplit name with
  | none => none
  | some (stem, ext) =>
    if stem.getLast? ≠ some ')' then none
    else
      let u := stem.dropLast
      let ds := (u.reverse.takeWhile Char.isDigit).reverse
      if ds.length = 0 then none
      else if u.length ≤ ds.length then none
      else if (u.take (u.length - ds.length)).getLast? ≠ some '(' then none
      else
        let base := u.take (u.length - ds.length - 1)
        if base.length = 0 then none else some (base, ds, ext)

/-- Regex `^(.+)\(\d+\)\.mp4$` with IGNORECASE (rule 6 of all three
resolvers): returns the `base` of `base(N).mp4`. -/
def parenMp4Split (name : FName) : Option FName :=
  if !(strEndsWith (lowerName name) (nm ".mp4")) then none
  else
    let t := dropEnd name 4
    if t.getLast? ≠ some ')' then none
    else
      let u := t.dropLast
      let ds := (u.reverse.takeWhile Char.isDigit).reverse
      if ds.length = 0 then none
      else if u.length ≤ ds.length then none
      else if (u.take (u.length - ds.length)).getLast? ≠ some '(' then none
      else
        let base := u.take (u.length - ds.length - 1)
        if base.length = 0 then none else some base

/-- Regex `^(.*)-edited(\.[^.]+)$` with IGNORECASE (rule 4): strips the
`-edited` marker, returning `base ++ ext`. -/
def editedSplit (name : FName) : Option FName :=
  match extSplit name with
  | none => none
  | some (stem, ext) =>
    if strEndsWith (lowerName stem) (nm "-edited") then some (dropEnd stem 7 ++ ext)
    else none

/-- Case-insensitive equality of a sidecar name with a target name
(`j.name.lower() == target.lower()` of the processor and validator). -/
def exactPred (target : FName) (j : Sidecar) : Bool :=
  lowerName j.name == lowerName target

/-- Regex `^{re.escape(stem)}.*\.json$` with IGNORECASE, used by
`json_matcher` rules 1, 4 and 8. -/
def stemPat (stem : FName) (j : Sidecar) : Bool :=
  strStartsWith (lowerName j.name) (lowerName stem) &&
  strEndsWith (lowerName j.name) jsonSuffix &&
  decide (stem.length + 5 ≤ j.name.length)

/-- Title-based predicate (`data.get("title") == name`): requires the
sidecar body to parse and its `title` field to equal the media name. -/
def titlePred (name : FName) (j : Sidecar) : Bool :=
  match j.content with
  | some m => m.title == some name
  | none => false

/-- Truncation-rule gate: `len(name + ".json") > JSON_LENGTH_LIMIT`. -/
def rule2gate (name : FName) : Bool := decide (JSON_LENGTH_LIMIT < name.length + 5)

/-- Truncated media name `name[:JSON_LENGTH_LIMIT - 5]`. -/
def truncName (name : FName) : FName := name.take (JSON_LENGTH_LIMIT - 5)

/-- Rule-2 predicate of the processor and of `json_matcher`:
`j.name.lower().startswith(trunc.lower())`. -/
def rule2pred (name : FName) (j : Sidecar) : Bool :=
  strStartsWith (lowerName j.name) (lowerName (truncName name))

/-- Rule-2 predicate of the validator, which additionally requires the
sidecar name to end in `.json` and its stem to be a prefix of the media
name (`media_name.lower().startswith(json_base.lower())`). -/
def rule2predV (name : FName) (j : Sidecar) : Bool :=
  strStartsWith (lowerName j.name) (lowerName (truncName name)) &&
  strEndsWith (lowerName j.name) jsonSuffix &&
  strStartsWith (lowerName name) (lowerName (dropEnd j.name 5))

/-- Rule 1 of the processor and validator: exact `name + ".json"` match. -/
def rule1find (name : FName) (cands : List Sidecar) : Option Sidecar :=
  cands.find? (exactPred (name ++ jsonSuffix))

/-- Rule 2 of the processor: truncated-prefix match behind the length gate. -/
def rule2findP (name : FName) (cands : List Sidecar) : Option Sidecar :=
  if rule2gate name then cands.find? (rule2pred name) else none

/-- Rule 2 of the validator: truncated-prefix match with the extra
stem-of-media check, behind the same length gate. -/
def rule2findV (name : FName) (cands : List Sidecar) : Option Sidecar :=
  if rule2gate name then cands.find? (rule2predV name) else none

/-- Rule 3 of the processor and validator: exact `base ++ ext ++ "(N).json"`. -/
def rule3find (name : FName) (cands : List Sidecar) : Option Sidecar :=
  match parenSplit name with
  | some (b, d, e) => cands.find? (exactPred (b ++ e ++ ('(' :: d) ++ nm ").json"))
  | none => none

/-- Rule 4 of the processor and validator: exact `base_name + ".json"` after
stripping `-edited`. -/
def rule4find (name : FName) (cands : List Sidecar) : Option Sidecar :=
  match editedSplit name with
  | some bn => cands.find? (exactPred (bn ++ jsonSuffix))
  | none => none

/-- Rule 5 of the processor and validator: for `.mp4` media, exact
`base.JPG.json` first, then exact `base.HEIC.json` (two sequential scans). -/
def rule5find (name : FName) (cands : List Sidecar) : Option Sidecar :=
  if strEndsWith (lowerName name) (nm ".mp4") then
    match cands.find? (exactPred (dropEnd name 4 ++ nm ".JPG.json")) with
    | some j => some j
    | none => cands.find? (exactPred (dropEnd name 4 ++ nm ".HEIC.json"))
  else none

/-- Rule 6 of the processor and validator: the rule-5 fallback for
`base(N).mp4` media, against the un-numbered `base`. -/
def rule6find (name : FName) (cands : List Sidecar) : Option Sidecar :=
  match parenMp4Split name with
  | some b =>
    match cands.find? (exactPred (b ++ nm ".JPG.json")) with
    | some j => some j
    | none => cands.find? (exactPred (b ++ nm ".HEIC.json"))
  | none => none

/-- Rule 7 of the processor and validator: for `.png` media, exact
`base + ".json"` where `base` drops the `.png` extension. -/
def rule7find (name : FName) (cands : List Sidecar) : Option Sidecar :=
  if strEndsWith (lowerName name) (nm ".png") then
    cands.find? (exactPred (dropEnd name 4 ++ jsonSuffix))
  else none

/-- Title-fallback scan (rule 8 of the processor and validator, rule 7 of
`json_matcher`): first candidate whose parsed body has `title == name`. -/
def titleFind (name : FName) (cands : List Sidecar) : Option Sidecar :=
  cands.find? (titlePred name)

namespace Processor

/-- Embedding of `GooglePhotosProcessor._match_json`
(src/google_photos_processor.py lines 122-210).  Returns the rule number
together with the matched sidecar (the source logs the rule number and
increments `folder_rule_counts[rule]`), or `none` for the empty list. -/
def _match_json (name : FName) (cands : List Sidecar) : Option (Nat × Sidecar) :=
  match rule1find name cands with
  | some j => some (1, j)
  | none =>
    match rule2findP name cands with
    | some j => some (2, j)
    | none =>
      match rule3find name cands with
      | some j => some (3, j)
      | none =>
        match rule4find name cands with
        | some j => some (4, j)
        | none =>
          match rule5find name cands with
          | some j => some (5, j)
          | none =>
            match rule6find name cands with
            | some j => some (6, j)
            | none =>
              match rule7find name cands with
              | some j => some (7, j)
              | none =>
                match titleFind name cands with
                | some j => some (8, j)
                | none => none

end Processor

namespace Validator

/-- Embedding of `GooglePhotosValidator._find_json_for_media`
(src/validate.py lines 105-184).  Rules 1 and 3-8 are textually identical
to the processor's; rule 2 uses the stricter `rule2predV`. -/
def _find_json_for_media (name : FName) (cands : List Sidecar) : Option Sidecar :=
  match rule1find name cands with
  | some j => some j
  | none =>
    match rule2findV name cands with
    | some j => some j
    | none =>
      match rule3find name cands with
      | some j => some j
      | none =>
        match rule4find name cands with
        | some j => some j
        | none =>
          match rule5find name cands with
          | some j => some j
          | none =>
            match rule6find name cands with
            | some j => some j
            | none =>
              match rule7find name cands with
              | some j => some j
              | none => titleFind name cands

end Validator

namespace JsonMatcher

/-- Rule-3 pattern of `json_matcher`:
`^{base}{ext}.*\({num}\)\.json$` with IGNORECASE. -/
def parenPat (b d e : FName) (j : Sidecar) : Bool :=
  strStartsWith (lowerName j.name) (lowerName (b ++ e)) &&
  strEndsWith (lowerName j.name) (lowerName (('(' :: d) ++ nm ").json")) &&
  decide (b.length + e.length + d.length + 7 ≤ j.name.length)

/-- Rule-5/6 pattern of `json_matcher`:
`j.name.lower().startswith(base.lower()) and j.name.lower().endswith('.json')`. -/
def livePat (base : FName) (j : Sidecar) : Bool :=
  strStartsWith (lowerName j.name) (lowerName base) &&
  strEndsWith (lowerName j.name) jsonSuffix

/-- Rule 1 of `json_matcher`: stem pattern `^{name}.*\.json$`. -/
def m1find (name : FName) (cands : List Sidecar) : Option Sidecar :=
  cands.find? (stemPat name)

/-- Rule 2 of `json_matcher`: truncated-prefix match behind the length gate. -/
def m2find (name : FName) (cands : List Sidecar) : Option Sidecar :=
  if rule2gate name then cands.find? (rule2pred name) else none

/-- Rule 3 of `json_matcher`: relaxed parenthetical pattern. -/
def m3find (name : FName) (cands : List Sidecar) : Option Sidecar :=
  match parenSplit name with
  | some (b, d, e) => cands.find? (parenPat b d e)
  | none => none

/-- Rule 4 of `json_matcher`: stem pattern on the `-edited`-stripped name. -/
def m4find (name : FName) (cands : List Sidecar) : Option Sidecar :=
  match editedSplit name with
  | some bn => cands.find? (stemPat bn)
  | none => none

/-- Rule 5 of `json_matcher`: live-photo fallback for `.mp4` media. -/
def m5find (name : FName) (cands : List Sidecar) : Option Sidecar :=
  if strEndsWith (lowerName name) (nm ".mp4") then
    cands.find? (livePat (dropEnd name 4))
  else none

/-- Rule 6 of `json_matcher`: live-photo fallback for `base(N).mp4` media. -/
def m6find (name : FName) (cands : List Sidecar) : Option Sidecar :=
  match parenMp4Split name with
  | some b => cands.find? (livePat b)
  | none => none

/-- Rule 8 of `json_matcher`: stem pattern on the extension-stripped name. -/
def m8find (name : FName) (cands : List Sidecar) : Option Sidecar :=
  match extSplit name with
  | some (stem, _) => cands.find? (stemPat stem)
  | none => none

/-- Embedding of `match_json` (src/json_matcher.py lines 30-119).
Rule order in this variant: 1 stem pattern on the full name, 2 truncated,
3 relaxed parenthetical, 4 edited, 5 live photos, 6 live-photo duplicates,
7 title field (content inspection), 8 stem pattern on the
extension-stripped name. -/
def match_json (name : FName) (cands : List Sidecar) : Option (Nat × Sidecar) :=
  match m1find name cands with
  | some j => some (1, j)
  | none =>
    match m2find name cands with
    | some j => some (2, j)
    | none =>
      match m3find name cands with
      | some j => some (3, j)
      | none =>
        match m4find name cands with
        | some j => some (4, j)
        | none =>
          match m5find name cands with
          | some j => some (5, j)
          | none =>
            match m6find name cands with
            | some j => some (6, j)
            | none =>
              match titleFind name cands with
              | some j => some (7, j)
              | none =>
                match m8find name cands with
                | some j => some (8, j)
                | none => none

end JsonMatcher

/-! ## Calendar and time-zone arithmetic

The sources delegate time-zone conversion to the standard library
(`datetime.fromtimestamp(int(ts), tz=UTC).astimezone(PACIFIC)` with
`PACIFIC = ZoneInfo("America/Los_Angeles")`).  We embed that collaborator
with exact integer calendar arithmetic (proleptic Gregorian) and the
post-2006 United States daylight-saving rules for the Pacific zone
(DST from the second Sunday of March, 02:00 local, to the first Sunday
of November, 02:00 local). -/

/-- Civil date `(year, month, day)` of a day count since 1970-01-01
(proleptic Gregorian). -/
def civilFromDays (z : Int) : Int × Nat × Nat :=
  let zSh := z + 719468
  let era : Int := zSh.fdiv 146097
  let doe : Nat := (zSh - era * 146097).toNat
  let yoe : Nat := (doe - doe / 1460 + doe / 36524 - doe / 146096) / 365
  let y : Int := (yoe : Int) + era * 400
  let doy : Nat := doe - (365 * yoe + yoe / 4 - yoe / 100)
  let mp : Nat := (5 * doy + 2) / 153
  let d : Nat := doy - (153 * mp + 2) / 5 + 1
  let m : Nat := if mp < 10 then mp + 3 else mp - 9
  (if m ≤ 2 then y + 1 else y, m, d)

/-- Day count since 1970-01-01 of a civil date (proleptic Gregorian). -/
def daysFromCivil (y : Int) (m d : Nat) : Int :=
  let yAdj : Int := if m ≤ 2 then y - 1 else y
  let era : Int := yAdj.fdiv 400
  let yoe : Nat := (yAdj - era * 400).toNat
  let mp : Nat := if 2 < m then m - 3 else m + 9
  let doy : Nat := (153 * mp + 2) / 5 + d - 1
  let doe : Nat := yoe * 365 + yoe / 4 - yoe / 100 + doy
  era * 146097 + (doe : Int) - 719468

/-- Day of month of the n-th Sunday of month `m` in year `y`. -/
def nthSundayDom (y : Int) (m n : Nat) : Nat :=
  let d1 := daysFromCivil y m 1
  let w : Nat := ((d1 + 4).emod 7).toNat
  1 + (7 - w) % 7 + 7 * (n - 1)

/-- UTC instant at which Pacific DST starts in year `y`
(second Sunday of March, 02:00 PST = 10:00 UTC). -/
def dstStartUtc (y : Int) : Int :=
  daysFromCivil y 3 (nthSundayDom y 3 2) * 86400 + 10 * 3600

/-- UTC instant at which Pacific DST ends in year `y`
(first Sunday of November, 02:00 PDT = 09:00 UTC). -/
def dstEndUtc (y : Int) : Int :=
  daysFromCivil y 11 (nthSundayDom y 11 1) * 86400 + 9 * 3600

/-- UTC offset (in seconds) of America/Los_Angeles at UTC timestamp `ts`. -/
def pacificOffset (ts : Int) : Int :=
  let y := (civilFromDays ((ts - 8 * 3600).fdiv 86400)).1
  if dstStartUtc y ≤ ts ∧ ts < dstEndUtc y then -7 * 3600 else -8 * 3600

/-- `(year, month)` of UTC timestamp `ts` converted to America/Los_Angeles
local time — the `(dt.year, dt.month)` the pipeline and the auditor read. -/
def pacificYearMonth (ts : Int) : Int × Nat :=
  let c := civilFromDays ((ts + pacificOffset ts).fdiv 86400)
  (c.1, c.2.1)

/-- `(year, month)` of UTC timestamp `ts` read in UTC (for contrast). -/
def utcYearMonth (ts : Int) : Int × Nat :=
  let c := civilFromDays (ts.fdiv 86400)
  (c.1, c.2.1)

/-- Decimal string of an integer (Python `str(dt.year)`). -/
def intName (i : Int) : FName := (toString i).data

/-- Zero-padded two-digit month string (Python `f-string` `:02d`). -/
def pad2 (n : Nat) : FName :=
  if n < 10 then '0' :: (toString n).data else (toString n).data

/-! ## Pipeline (`GooglePhotosProcessor._process_file` / `_process_folder`) -/

/-- `MEDIA_EXTS` of `GooglePhotosProcessor` (lines 49-53); the validator
repeats the same set. -/
def MEDIA_EXTS : List FName :=
  [nm ".jpg", nm ".jpeg", nm ".png", nm ".gif", nm ".bmp", nm ".tiff", nm ".tif",
   nm ".mp4", nm ".mov", nm ".avi", nm ".mkv", nm ".webm", nm ".m4v", nm ".3gp",
   nm ".heic", nm ".heif"]

/-- `WRITABLE_FORMATS` of `GooglePhotosProcessor` (lines 56-59). -/
def WRITABLE_FORMATS : List FName :=
  [nm ".jpg", nm ".jpeg", nm ".png", nm ".tiff", nm ".tif", nm ".heic", nm ".heif",
   nm ".mp4", nm ".mov", nm ".m4v", nm ".3gp"]

/-- `READ_ONLY_FORMATS` of `GooglePhotosProcessor` (lines 62-64). -/
def READ_ONLY_FORMATS : List FName :=
  [nm ".avi", nm ".mkv", nm ".webm", nm ".gif", nm ".bmp"]

/-- The three classification branches of `_process_file` (lines 289-354). -/
inductive Branch where
  | readOnlyB
  | writableB
  | unknownB
deriving DecidableEq

/-- Branch taken by `_process_file` for a (lowercased) extension:
`READ_ONLY_FORMATS` is tested first, then `WRITABLE_FORMATS`, else the
unknown-format branch. -/
def classifyFormat (ext : FName) : Branch :=
  if READ_ONLY_FORMATS.contains ext then .readOnlyB
  else if WRITABLE_FORMATS.contains ext then .writableB
  else .unknownB

/-- Python `Path.suffix` (the final extension including the dot; empty for
dotless names, names ending in a dot, and pure-dotfile names). -/
def pySuffix (name : FName) : FName :=
  match extSplit name with
  | some (stem, ext) => if stem.isEmpty then [] else ext
  | none => []

/-- Timestamp selection of `_process_file` line 271:
`meta.get("photoTakenTime", {}).get("timestamp") or
meta.get("creationTime", {}).get("timestamp")` — Python `or` takes the
first operand when it is truthy, otherwise the second operand's value.
The validator's field loop (validate.py lines 197-202) selects the same
value.  `_build_cmd` (lines 224-227) makes the same choice for the
embedded dates via walrus-`if`/`elif`. -/
def chooseTs (m : Meta) : Option JVal :=
  match m.photoTakenTime with
  | some v => if v.truthy then some v else m.creationTime
  | none => m.creationTime

/-- Per-file outcome, matching the counters and skip reasons of the source
(`skipped`, `processed`, `copied_only`) plus `raised_error` for an
unhandled Python exception escaping `_process_file`. -/
inductive Outcome where
  | skipped_bad_json
  | skipped_no_timestamp
  | skipped_no_match
  | metadata_embedded
  | copied_only
  | raised_error
deriving DecidableEq

/-- Result of processing one media file: its outcome and the list of
relative archive paths (each `[year, month, filename]`) written under
`out_base` by `shutil.copy2`. -/
structure FileAction where
  outcome : Outcome
  writes : List (List FName)
deriving DecidableEq

namespace Processor

/-- Embedding of `GooglePhotosProcessor._process_file` (lines 262-354).
`content` is the parsed body of the matched sidecar (`none` = `_load_json`
failed); `embedOk` is the exit status of the external `exiftool`
invocation (a collaborator).  `int(ts)` on a non-numeric string raises an
uncaught `ValueError`, modelled as `raised_error`. -/
def _process_file (name : FName) (content : Option Meta) (embedOk : Bool) : FileAction :=
  match content with
  | none => ⟨.skipped_bad_json, []⟩
  | some meta =>
    match chooseTs meta with
    | none => ⟨.skipped_no_timestamp, []⟩
    | some v =>
      if v.truthy then
        match pyInt v with
        | none => ⟨.raised_error, []⟩
        | some ts =>
          let ym := pacificYearMonth ts
          let target := [intName ym.1, pad2 ym.2, name]
          match classifyFormat (lowerName (pySuffix name)) with
          | .readOnlyB => ⟨.copied_only, [target]⟩
          | .writableB => ⟨if embedOk then .metadata_embedded else .copied_only, [target]⟩
          | .unknownB => ⟨if embedOk then .metadata_embedded else .copied_only, [target]⟩
      else ⟨.skipped_no_timestamp, []⟩

/-- Embedding of the per-file step of `_process_folder` (lines 399-407):
resolve the sidecar; on a unique match call `_process_file`, otherwise
record the file as skipped (`"no or multi JSON"`). -/
def _process_folder_step (name : FName) (cands : List Sidecar) (embedOk : Bool) : FileAction :=
  match _match_json name cands with
  | some (_, j) => _process_file name j.content embedOk
  | none => ⟨.skipped_no_match, []⟩

end Processor

namespace Validator

/-- Embedding of `GooglePhotosValidator._compare_file_sizes`
(validate.py lines 218-240), given both files' sizes: mismatch when the
output is more than 32 bytes smaller or more than 10240 bytes larger. -/
def _compare_file_sizes (input_size output_size : Int) : Bool :=
  let size_diff := output_size - input_size
  if size_diff < -32 then false
  else if size_diff > 10240 then false
  else true

end Validator

/-! ## Helper lemmas -/

/-- A list is a `isPrefixOf`-prefix of itself followed by anything. -/
theorem isPrefixOf_append_self (l t : FName) : l.isPrefixOf (l ++ t) = true := by
  induction l with
  | nil => simp [List.isPrefixOf]
  | cons a as ih => simp [List.isPrefixOf, ih]

/-- If a predicate holds of at least two list elements, `find?` succeeds and
its result satisfies the predicate. -/
theorem find_of_two_filter {p : Sidecar → Bool} {l : List Sidecar}
    (h : 2 ≤ (l.filter p).length) : ∃ c, l.find? p = some c ∧ p c = true := by
  have hne : l.filter p ≠ [] := by
    intro he
    rw [he] at h
    simp at h
  obtain ⟨x, hx⟩ := List.exists_mem_of_ne_nil _ hne
  have hmem := List.mem_filter.mp hx
  cases hf : l.find? p with
  | none => exact absurd hmem.2 (by simp [List.find?_eq_none.mp hf x hmem.1])
  | some c => exact ⟨c, rfl, List.find?_some hf⟩

/-- `Processor._match_json` reports rule 1 exactly when the rule-1 scan
succeeds, and then returns its (first) match. -/
theorem proc_rule1_iff (name : FName) (cands : List Sidecar) (c : Sidecar) :
    Processor._match_json name cands = some (1, c) ↔ rule1find name cands = some c := by
  unfold Processor._match_json
  cases h1 : rule1find name cands with
  | some j => simp
  | none =>
    cases rule2findP name cands <;>
      cases rule3find name cands <;>
        cases rule4find name cands <;>
          cases rule5find name cands <;>
            cases rule6find name cands <;>
              cases rule7find name cands <;>
                cases titleFind name cands <;> simp

/-- `JsonMatcher.match_json` reports rule 1 exactly when the rule-1 scan
succeeds, and then returns its (first) match. -/
theorem jm_rule1_iff (name : FName) (cands : List Sidecar) (c : Sidecar) :
    JsonMatcher.match_json name cands = some (1, c) ↔
      JsonMatcher.m1find name cands = some c := by
  unfold JsonMatcher.match_json
  cases h1 : JsonMatcher.m1find name cands with
  | some j => simp
  | none =>
    cases JsonMatcher.m2find name cands <;>
      cases JsonMatcher.m3find name cands <;>
        cases JsonMatcher.m4find name cands <;>
          cases JsonMatcher.m5find name cands <;>
            cases JsonMatcher.m6find name cands <;>
              cases titleFind name cands <;>
                cases JsonMatcher.m8find name cands <;> simp

/-- `_process_file` either writes nothing or ends in a copy outcome:
every write is preceded by reaching the copy stage. -/
theorem process_file_cases (name : FName) (content : Option Meta) (embedOk : Bool) :
    (Processor._process_file name content embedOk).writes = [] ∨
    (Processor._process_file name content embedOk).outcome = Outcome.metadata_embedded ∨
    (Processor._process_file name content embedOk).outcome = Outcome.copied_only := by
  unfold Processor._process_file
  rcases content with _ | meta
  · simp
  rcases hts : chooseTs meta with _ | v
  · simp [hts]
  cases htr : v.truthy
  · simp [hts, htr]
  rcases hpi : pyInt v with _ | ts
  · simp [hts, htr, hpi]
  cases hcf : classifyFormat (lowerName (pySuffix name)) <;> cases embedOk <;>
    simp [hts, htr, hpi, hcf]

/-- A singleton scan succeeds exactly when its single candidate satisfies
the predicate. -/
theorem find_singleton (p : Sidecar → Bool) (c : Sidecar) :
    [c].find? p = some c ↔ p c = true := by
  cases h : p c <;> simp [List.find?, h]

/-- An exact (case-insensitive) `name ++ ".json"` match also satisfies the
stem pattern `^{name}.*\.json$`. -/
theorem exact_implies_stem (name : FName) (c : Sidecar)
    (h : exactPred (name ++ jsonSuffix) c = true) : stemPat name c = true := by
  have he : lowerName c.name = lowerName name ++ lowerName jsonSuffix := by
    have hb : lowerName c.name = lowerName (name ++ jsonSuffix) := by
      simpa [exactPred] using h
    simpa [lowerName] using hb
  have hj : lowerName jsonSuffix = jsonSuffix := by decide
  have h5 : jsonSuffix.length = 5 := by decide
  have hlen := congrArg List.length he
  simp only [lowerName, List.length_map, List.length_append] at hlen
  simp only [stemPat, strStartsWith, strEndsWith, Bool.and_eq_true, decide_eq_true_eq]
  refine ⟨⟨?_, ?_⟩, ?_⟩
  · rw [he]
    exact isPrefixOf_append_self _ _
  · rw [he, hj, List.reverse_append]
    exact isPrefixOf_append_self _ _
  · omega

/-! ## Claim theorems -/

/-- C1, counterexample: rule 1 of `JsonMatcher.match_json` matches both of
two distinct candidates, yet the resolver returns the first of them under
rule 1 instead of treating the ambiguous rule as a miss. -/
theorem C1_counter :
    2 ≤ (([⟨nm "a.jpg.json", none⟩, ⟨nm "a.jpg.x.json", none⟩] : List Sidecar).filter
          (stemPat (nm "a.jpg"))).length ∧
    JsonMatcher.match_json (nm "a.jpg")
        [⟨nm "a.jpg.json", none⟩, ⟨nm "a.jpg.x.json", none⟩] =
      some (1, ⟨nm "a.jpg.json", none⟩) ∧
    (⟨nm "a.jpg.json", none⟩ : Sidecar) ≠ ⟨nm "a.jpg.x.json", none⟩ := by decide

/-- C1, amended: when a rule's pattern matches two or more candidates the
resolvers do not treat the rule as a miss — they return the first matching
candidate in candidate-list order under that rule (shown for rule 1 of
`json_matcher.match_json` and of `GooglePhotosProcessor._match_json`). -/
theorem C1_amended :
    (∀ (name : FName) (cands : List Sidecar),
        2 ≤ (cands.filter (stemPat name)).length →
        ∃ c, JsonMatcher.match_json name cands = some (1, c) ∧ stemPat name c = true) ∧
    (∀ (name : FName) (cands : List Sidecar),
        2 ≤ (cands.filter (exactPred (name ++ jsonSuffix))).length →
        ∃ c, Processor._match_json name cands = some (1, c) ∧
          exactPred (name ++ jsonSuffix) c = true) := by
  constructor
  · intro name cands h
    obtain ⟨c, hf, hp⟩ := find_of_two_filter h
    exact ⟨c, (jm_rule1_iff name cands c).mpr hf, hp⟩
  · intro name cands h
    obtain ⟨c, hf, hp⟩ := find_of_two_filter h
    exact ⟨c, (proc_rule1_iff name cands c).mpr hf, hp⟩

/-- C1, witness for the amended theorem at concrete ambiguous inputs. -/
theorem C1_amended_witness :
    (∃ c, JsonMatcher.match_json (nm "a.jpg")
        [⟨nm "a.jpg.json", none⟩, ⟨nm "a.jpg.x.json", none⟩] = some (1, c) ∧
        stemPat (nm "a.jpg") c = true) ∧
    (∃ c, Processor._match_json (nm "b.jpg")
        [⟨nm "b.jpg.json", none⟩, ⟨nm "B.JPG.JSON", none⟩] = some (1, c) ∧
        exactPred (nm "b.jpg" ++ jsonSuffix) c = true) :=
  ⟨C1_amended.1 _ _ (by decide), C1_amended.2 _ _ (by decide)⟩

/-- C2, counterexample: in `json_matcher.match_json` the title rule is
rule 7, not last — here it fires (inspecting sidecar content) even though
the filename-pattern rule 8 matches the same candidate, so content is
inspected before every filename-pattern rule has failed. -/
theorem C2_counter :
    JsonMatcher.match_json (nm "photo.jpg")
        [⟨nm "photo.json", some ⟨some (nm "photo.jpg"), none, none⟩⟩] =
      some (7, ⟨nm "photo.json", some ⟨some (nm "photo.jpg"), none, none⟩⟩) ∧
    JsonMatcher.m8find (nm "photo.jpg")
        [⟨nm "photo.json", some ⟨some (nm "photo.jpg"), none, none⟩⟩] =
      some ⟨nm "photo.json", some ⟨some (nm "photo.jpg"), none, none⟩⟩ := by decide

/-- C2, amended: in the processor's resolver the title rule (rule 8) is
strictly last — whenever rule 1 succeeds the result is rule 1 (so no
sidecar body is parsed), and a rule-8 result implies all seven
filename-pattern rules returned nothing; in `json_matcher` the title rule
is instead rule 7 and the stem-pattern rule 8 runs after it. -/
theorem C2_amended :
    (∀ (name : FName) (cands : List Sidecar) (c : Sidecar),
        rule1find name cands = some c →
        Processor._match_json name cands = some (1, c)) ∧
    (∀ (name : FName) (cands : List Sidecar) (c : Sidecar),
        Processor._match_json name cands = some (8, c) →
        rule1find name cands = none ∧ rule2findP name cands = none ∧
        rule3find name cands = none ∧ rule4find name cands = none ∧
        rule5find name cands = none ∧ rule6find name cands = none ∧
        rule7find name cands = none ∧ titleFind name cands = some c) := by
  constructor
  · intro name cands c h
    exact (proc_rule1_iff name cands c).mpr h
  · intro name cands c h
    unfold Processor._match_json at h
    cases h1 : rule1find name cands <;> simp only [h1] at h
    · cases h2 : rule2findP name cands <;> simp only [h2] at h
      · cases h3 : rule3find name cands <;> simp only [h3] at h
        · cases h4 : rule4find name cands <;> simp only [h4] at h
          · cases h5 : rule5find name cands <;> simp only [h5] at h
            · cases h6 : rule6find name cands <;> simp only [h6] at h
              · cases h7 : rule7find name cands <;> simp only [h7] at h
                · cases h8 : titleFind name cands <;> simp only [h8] at h
                  · simp at h
                  · simp only [Option.some.injEq, Prod.mk.injEq, true_and] at h
                    exact ⟨rfl, rfl, rfl, rfl, rfl, rfl, rfl, by rw [h]⟩
                · simp at h
              · simp at h
            · simp at h
          · simp at h
        · simp at h
      · simp at h
    · simp at h

/-- C2, witness for the amended theorem at concrete inputs: a rule-1 match
is reported as rule 1, and a title-rule match implies all filename rules
failed. -/
theorem C2_amended_witness :
    Processor._match_json (nm "a.jpg") [⟨nm "a.jpg.json", none⟩] =
      some (1, ⟨nm "a.jpg.json", none⟩) ∧
    (rule1find (nm "a.jpg") [⟨nm "b.json", some ⟨some (nm "a.jpg"), none, none⟩⟩] = none ∧
     rule2findP (nm "a.jpg") [⟨nm "b.json", some ⟨some (nm "a.jpg"), none, none⟩⟩] = none ∧
     rule3find (nm "a.jpg") [⟨nm "b.json", some ⟨some (nm "a.jpg"), none, none⟩⟩] = none ∧
     rule4find (nm "a.jpg") [⟨nm "b.json", some ⟨some (nm "a.jpg"), none, none⟩⟩] = none ∧
     rule5find (nm "a.jpg") [⟨nm "b.json", some ⟨some (nm "a.jpg"), none, none⟩⟩] = none ∧
     rule6find (nm "a.jpg") [⟨nm "b.json", some ⟨some (nm "a.jpg"), none, none⟩⟩] = none ∧
     rule7find (nm "a.jpg") [⟨nm "b.json", some ⟨some (nm "a.jpg"), none, none⟩⟩] = none ∧
     titleFind (nm "a.jpg") [⟨nm "b.json", some ⟨some (nm "a.jpg"), none, none⟩⟩] =
       some ⟨nm "b.json", some ⟨some (nm "a.jpg"), none, none⟩⟩) :=
  ⟨C2_amended.1 _ _ _ (by decide), C2_amended.2 _ _ _ (by decide)⟩

/-- C3, counterexample: the processor's rule 1 is an exact-name match only —
a sidecar of the general form `<media name>*.json` (which the stem pattern
accepts) is not matched by `GooglePhotosProcessor._match_json` at all. -/
theorem C3_counter :
    stemPat (nm "a.jpg") ⟨nm "a.jpg.extra.json", none⟩ = true ∧
    Processor._match_json (nm "a.jpg") [⟨nm "a.jpg.extra.json", none⟩] = none := by decide

/-- C3, amended: rule 1 of `json_matcher.match_json` matches exactly the
sidecars of the form `<media name>*.json` (case-insensitive stem pattern),
while rule 1 of the processor's resolver matches only the exact
`<media name>.json`; every exact match also satisfies the stem pattern. -/
theorem C3_amended :
    (∀ (name : FName) (c : Sidecar),
        JsonMatcher.match_json name [c] = some (1, c) ↔ stemPat name c = true) ∧
    (∀ (name : FName) (c : Sidecar),
        Processor._match_json name [c] = some (1, c) ↔
          exactPred (name ++ jsonSuffix) c = true) ∧
    (∀ (name : FName) (c : Sidecar),
        exactPred (name ++ jsonSuffix) c = true → stemPat name c = true) :=
  ⟨fun name c => (jm_rule1_iff name [c] c).trans (find_singleton _ c),
   fun name c => (proc_rule1_iff name [c] c).trans (find_singleton _ c),
   fun name c h => exact_implies_stem name c h⟩

/-- C3, witness for the amended theorem at concrete inputs. -/
theorem C3_amended_witness :
    JsonMatcher.match_json (nm "a.jpg") [⟨nm "a.jpg.x.json", none⟩] =
      some (1, ⟨nm "a.jpg.x.json", none⟩) ∧
    Processor._match_json (nm "a.jpg") [⟨nm "A.JPG.JSON", none⟩] =
      some (1, ⟨nm "A.JPG.JSON", none⟩) ∧
    stemPat (nm "a.jpg") ⟨nm "A.JPG.JSON", none⟩ = true :=
  ⟨(C3_amended.1 _ _).mpr (by decide),
   (C3_amended.2.1 _ _).mpr (by decide),
   C3_amended.2.2 _ _ (by decide)⟩

/-- C4, counterexample: on a 46-character media name the processor's
truncation rule accepts a candidate whose stem is not a prefix of the
media name, while the auditor's extra check rejects it, so the two
resolutions diverge (match versus unmatched). -/
theorem C4_counter :
    Processor._match_json (nm "aaaaaaaaaaaaaaaaaaaaaaaaaaaaaaaaaaaaaaaaaa.jpg")
        [⟨nm "aaaaaaaaaaaaaaaaaaaaaaaaaaaaaaaaaaaaaaaaaa.jpZ.json", none⟩] =
      some (2, ⟨nm "aaaaaaaaaaaaaaaaaaaaaaaaaaaaaaaaaaaaaaaaaa.jpZ.json", none⟩) ∧
    Validator._find_json_for_media (nm "aaaaaaaaaaaaaaaaaaaaaaaaaaaaaaaaaaaaaaaaaa.jpg")
        [⟨nm "aaaaaaaaaaaaaaaaaaaaaaaaaaaaaaaaaaaaaaaaaa.jpZ.json", none⟩] = none := by decide

/-- C4, amended: whenever the truncation rule is not engaged (media name
plus `.json` within the 50-character limit) the auditor's resolution
returns exactly the sidecar the pipeline's resolution returns (or
unmatched for both); the divergence is confined to rule 2. -/
theorem C4_amended (name : FName) (cands : List Sidecar)
    (h : name.length + 5 ≤ JSON_LENGTH_LIMIT) :
    Validator._find_json_for_media name cands =
      (Processor._match_json name cands).map Prod.snd := by
  have hg : rule2gate name = false := by
    unfold rule2gate
    exact decide_eq_false (by omega)
  have h2P : rule2findP name cands = none := by simp [rule2findP, hg]
  have h2V : rule2findV name cands = none := by simp [rule2findV, hg]
  unfold Validator._find_json_for_media Processor._match_json
  rw [h2P, h2V]
  cases rule1find name cands <;>
    cases rule3find name cands <;>
      cases rule4find name cands <;>
        cases rule5find name cands <;>
          cases rule6find name cands <;>
            cases rule7find name cands <;>
              cases titleFind name cands <;> simp

/-- C4, witness for the amended theorem at a concrete short name. -/
theorem C4_amended_witness :
    Validator._find_json_for_media (nm "a.jpg") [⟨nm "a.jpg.json", none⟩] =
      (Processor._match_json (nm "a.jpg") [⟨nm "a.jpg.json", none⟩]).map Prod.snd :=
  C4_amended _ _ (by decide)

/-- C5: for every record with a usable capture timestamp the pipeline's
archive location is `out_base / year / zero-padded month / original name`
with year and month taken from the timestamp converted to
America/Los_Angeles local time; in particular UTC timestamp 1609459200
falls under 2020/12 locally although it is 2021/01 in UTC. -/
theorem C5_placement :
    (∀ (name : FName) (meta : Meta) (v : JVal) (ts : Int) (embedOk : Bool),
        chooseTs meta = some v → v.truthy = true → pyInt v = some ts →
        (Processor._process_file name (some meta) embedOk).writes =
          [[intName (pacificYearMonth ts).1, pad2 (pacificYearMonth ts).2, name]]) ∧
    pacificYearMonth 1609459200 = (2020, 12) ∧
    utcYearMonth 1609459200 = (2021, 1) := by
  refine ⟨?_, by decide, by decide⟩
  intro name meta v ts embedOk h1 h2 h3
  unfold Processor._process_file
  cases hcf : classifyFormat (lowerName (pySuffix name)) <;> cases embedOk <;>
    simp [h1, h2, h3, hcf]

/-- C5, witness: the end-to-end scenario of the specification (timestamp
string `"1609459200"`) lands in `2020/12`. -/
theorem C5_placement_witness :
    (Processor._process_file (nm "IMG_0001.jpg")
        (some (Meta.mk none (some (JVal.str (nm "1609459200"))) none)) true).writes =
      [[intName (pacificYearMonth 1609459200).1, pad2 (pacificYearMonth 1609459200).2,
        nm "IMG_0001.jpg"]] :=
  C5_placement.1 _ _ (JVal.str (nm "1609459200")) 1609459200 true
    (by decide) (by decide) (by decide)

/-- C6, counterexample: with both timestamp fields present but a falsy
(zero) `photoTakenTime`, the code's truthiness-based `or` selects the
`creationTime` value even though `photoTakenTime` is present. -/
theorem C6_counter :
    (Meta.mk none (some (JVal.num 0)) (some (JVal.num 100))).photoTakenTime =
      some (JVal.num 0) ∧
    (Meta.mk none (some (JVal.num 0)) (some (JVal.num 100))).creationTime =
      some (JVal.num 100) ∧
    chooseTs (Meta.mk none (some (JVal.num 0)) (some (JVal.num 100))) =
      some (JVal.num 100) := by decide

/-- C6, amended: the derived record uses the `photoTakenTime` timestamp
whenever that value is truthy (non-zero number or nonempty string);
`creationTime` is used when `photoTakenTime` is absent or falsy. -/
theorem C6_amended :
    (∀ (m : Meta) (v : JVal),
        m.photoTakenTime = some v → v.truthy = true → chooseTs m = some v) ∧
    (∀ m : Meta, m.photoTakenTime = none → chooseTs m = m.creationTime) := by
  constructor
  · intro m v h ht
    simp [chooseTs, h, ht]
  · intro m h
    simp [chooseTs, h]

/-- C6, witness for the amended theorem at concrete records. -/
theorem C6_amended_witness :
    chooseTs (Meta.mk none (some (JVal.num 5)) (some (JVal.num 9))) = some (JVal.num 5) ∧
    chooseTs (Meta.mk none none (some (JVal.num 9))) =
      (Meta.mk none none (some (JVal.num 9))).creationTime :=
  ⟨C6_amended.1 _ (JVal.num 5) rfl (by decide), C6_amended.2 _ rfl⟩

/-- C7: at a sidecar whose timestamp field holds the non-numeric string
`"abc"`, `int(ts)` fails and `_process_file` ends in an unhandled fault
(`raised_error`) instead of recording the file as skipped — the uncaught
`ValueError` propagates out of `_process_folder` and aborts the run. -/
theorem C7_nonnumeric_raises :
    pyInt (JVal.str (nm "abc")) = none ∧
    Processor._process_file (nm "a.jpg")
        (some (Meta.mk none (some (JVal.str (nm "abc"))) none)) true =
      ⟨Outcome.raised_error, []⟩ := by decide

/-- C8: whenever the per-file step ends skipped (no unique match, bad
JSON, or missing timestamp) it has written nothing to the archive. -/
theorem C8_skip_no_write (name : FName) (cands : List Sidecar) (embedOk : Bool)
    (h : (Processor._process_folder_step name cands embedOk).outcome =
           Outcome.skipped_no_match ∨
         (Processor._process_folder_step name cands embedOk).outcome =
           Outcome.skipped_bad_json ∨
         (Processor._process_folder_step name cands embedOk).outcome =
           Outcome.skipped_no_timestamp) :
    (Processor._process_folder_step name cands embedOk).writes = [] := by
  unfold Processor._process_folder_step at h ⊢
  rcases hm : Processor._match_json name cands with _ | ⟨k, j⟩ <;> simp only [hm] at h ⊢
  rcases process_file_cases name j.content embedOk with hw | ho | ho
  · exact hw
  · rw [ho] at h
    simp at h
  · rw [ho] at h
    simp at h

/-- C8, witness: a file with no sidecar match is skipped with no write. -/
theorem C8_skip_no_write_witness :
    (Processor._process_folder_step (nm "a.jpg") [] true).writes = [] :=
  C8_skip_no_write (nm "a.jpg") [] true (Or.inl (by decide))

/-- C9: the auditor's size comparison accepts a pair of sizes exactly when
the output size lies in the band from `input - 32` to `input + 10240`
inclusive; both boundaries are accepted and every violation of either
bound is reported as a mismatch. -/
theorem C9_size_band (input_size output_size : Int) :
    Validator._compare_file_sizes input_size output_size = true ↔
      (input_size - 32 ≤ output_size ∧ output_size ≤ input_size + 10240) := by
  simp only [Validator._compare_file_sizes]
  split_ifs with h1 h2 <;> simp <;> omega

/-- C10: `WRITABLE_FORMATS` and `READ_ONLY_FORMATS` are disjoint and cover
`MEDIA_EXTS`, so every enumerated media extension takes one of the first
two classification branches of `_process_file` and never the
unknown-format branch. -/
theorem C10_formats :
    (∀ e ∈ MEDIA_EXTS, classifyFormat e ≠ Branch.unknownB) ∧
    (∀ e ∈ WRITABLE_FORMATS, e ∈ MEDIA_EXTS) ∧
    (∀ e ∈ READ_ONLY_FORMATS, e ∈ MEDIA_EXTS) ∧
    (∀ e ∈ WRITABLE_FORMATS, e ∉ READ_ONLY_FORMATS) := by decide

/-- C10, witness at concrete extensions. -/
theorem C10_formats_witness :
    classifyFormat (nm ".jpg") ≠ Branch.unknownB ∧
    nm ".jpg" ∈ MEDIA_EXTS ∧ nm ".avi" ∈ MEDIA_EXTS ∧ nm ".jpg" ∉ READ_ONLY_FORMATS :=
  ⟨C10_formats.1 (nm ".jpg") (by decide), C10_formats.2.1 (nm ".jpg") (by decide),
   C10_formats.2.2.1 (nm ".avi") (by decide), C10_formats.2.2.2 (nm ".jpg") (by decide)⟩
